import Mathlib

/-!
Verification of the notification-relay pipeline in `src/lambda_function.py`.

The Python module is embedded shallowly:

* JSON documents (the trigger event, the decoded audit log) become the
  inductive type `Json`.
* Python faults that the module can raise become the explicit error type
  `PyError`, and every fallible operation returns `Except PyError _`.
* Subscripting `d[k]`, indexing `l[i]`, iteration `for x in v`,
  `str.split(sep)` and `sep.join(xs)` are modelled by `Json.get`,
  `pyIndex`, `pyIter`, `pySplit` and `pyJoin`, each following Python
  semantics on JSON values.
* The external world (the S3 client together with the gzip / UTF-8 / JSON
  decoding libraries, and the Slack webhook) is an explicit environment
  `Env`; the handler returns, besides its outcome, the list of webhook
  POSTs it performed, so that side effects are visible in theorems.
-/

namespace LambdaFn

/-- A JSON value: the shape of both the S3 trigger event and the decoded
CloudTrail log that `lambda_function.py` manipulates. -/
inductive Json where
  | null : Json
  | bool (b : Bool) : Json
  | num (n : Int) : Json
  | str (s : String) : Json
  | arr (items : List Json) : Json
  | obj (fields : List (String × Json)) : Json

/-- The Python exceptions the module under `src/` can raise while running
on in-memory JSON data. The spec's design-level names map onto these:
`SchemaError` is the `KeyError` on the missing top-level key,
`MalformedIdentityError` is the `ValueError` from tuple unpacking of the
ARN split. -/
inductive PyError where
  | keyError (k : String) : PyError
  | indexError : PyError
  | typeError : PyError
  | valueError : PyError
  | attributeError : PyError
deriving DecidableEq

/-- First binding of a key in a Python dict represented as a field list. -/
def lookupField : List (String × Json) → String → Option Json
  | [], _ => none
  | (k, v) :: rest, key => if k = key then some v else lookupField rest key

/-- Python subscript `d[key]` with a string key: succeeds on a dict holding
the key, raises `KeyError` on a dict without it, `TypeError` otherwise. -/
def Json.get (j : Json) (key : String) : Except PyError Json :=
  match j with
  | .obj fields =>
    match lookupField fields key with
    | some v => .ok v
    | none => .error (.keyError key)
  | _ => .error .typeError

/-- Python subscript `v[i]` with an integer index: indexes a list
(`IndexError` when out of range), looks up a dict (whose JSON keys are
strings, so an integer is always a `KeyError`), picks a one-character
string out of a string, and is a `TypeError` on the rest. -/
def pyIndex (j : Json) (i : Nat) : Except PyError Json :=
  match j with
  | .arr items =>
    match items.get? i with
    | some v => .ok v
    | none => .error .indexError
  | .obj _ => .error (.keyError (toString i))
  | .str s =>
    match s.data.get? i with
    | some c => .ok (.str (String.mk [c]))
    | none => .error .indexError
  | _ => .error .typeError

/-- Python `for x in v`: a list yields its items, a dict its keys, a
string its characters; `None`, booleans and numbers are not iterable. -/
def pyIter (j : Json) : Except PyError (List Json) :=
  match j with
  | .arr items => .ok items
  | .obj fields => .ok (fields.map fun f => Json.str f.1)
  | .str s => .ok (s.data.map fun c => Json.str (String.mk [c]))
  | _ => .error .typeError

/-- Python `v == target` where `target` is a string: true exactly when `v`
is an equal string; values of any other type compare unequal without
raising. -/
def jsonEqStr (j : Json) (target : String) : Bool :=
  match j with
  | .str s => s == target
  | _ => false

/-- Accumulator loop behind `pySplit`. -/
def pySplitAux (sep : Char) : List Char → List Char → List String
  | [], acc => [String.mk acc.reverse]
  | c :: rest, acc =>
    if c = sep then String.mk acc.reverse :: pySplitAux sep rest []
    else pySplitAux sep rest (c :: acc)

/-- Python `s.split(sep)` for a one-character separator: splits at every
occurrence, keeping empty pieces, and yields `[""]` on the empty string. -/
def pySplit (s : String) (sep : Char) : List String :=
  pySplitAux sep s.data []

/-- Python `v.split('/')`: only strings have a `split` method, so any
other value raises `AttributeError`. -/
def pySplitSlash (j : Json) : Except PyError (List String) :=
  match j with
  | .str s => .ok (pySplit s '/')
  | _ => .error .attributeError

/-- Python `sep.join(xs)` run on JSON values: every element must be a
string, otherwise `TypeError`. -/
def asStrList : List Json → Except PyError (List String)
  | [] => .ok []
  | .str s :: rest =>
    match asStrList rest with
    | .ok l => .ok (s :: l)
    | .error e => .error e
  | _ :: _ => .error .typeError

/-- `'\n'.join(instances)` from `update_slack`, generalised to any
separator. -/
def pyJoin (sep : String) (js : List Json) : Except PyError String :=
  match asStrList js with
  | .ok l => .ok (String.intercalate sep l)
  | .error e => .error e

/-- Result of `get_events`: the Python function returns the tagged tuple
`(1, username, role, instance_names)` on a match and
`(0, 'Event not present.')` otherwise; `lambda_handler` branches on the
integer tag. -/
inductive GetEventsResult where
  | found (username role : String) (instance_names : List Json) : GetEventsResult
  | notFound : GetEventsResult

/-- The collection loop of `get_events` (lines 58-61):
`for item in instances: instance_names.append(item['instanceId'])`.
Faults on the first item without an `instanceId` key; otherwise yields the
values in list order, neither deduplicated nor sorted. -/
def collectInstanceIds : List Json → Except PyError (List Json)
  | [] => .ok []
  | item :: rest =>
    match item.get "instanceId" with
    | .error e => .error e
    | .ok name =>
      match collectInstanceIds rest with
      | .error e => .error e
      | .ok names => .ok (name :: names)

/-- The body of the `if` branch of `get_events` (lines 51-62), run on the
first record whose `eventName` matched: reads `userIdentity.arn`, splits
it on `/` and unpacks `arn, role, username` (a `ValueError` when the list
does not have exactly three elements), then collects every `instanceId`
under `responseElements.instancesSet.items`. Logging calls are effects on
the log stream only and are omitted. -/
def extract_match (record : Json) : Except PyError GetEventsResult :=
  match record.get "userIdentity" with
  | .error e => .error e
  | .ok userIdentity =>
    match userIdentity.get "arn" with
    | .error e => .error e
    | .ok iam_entity =>
      match pySplitSlash iam_entity with
      | .error e => .error e
      | .ok parts =>
        match parts with
        | [_arn, role, username] =>
          match record.get "responseElements" with
          | .error e => .error e
          | .ok responseElements =>
            match responseElements.get "instancesSet" with
            | .error e => .error e
            | .ok instancesSet =>
              match instancesSet.get "items" with
              | .error e => .error e
              | .ok items =>
                match pyIter items with
                | .error e => .error e
                | .ok instances =>
                  match collectInstanceIds instances with
                  | .error e => .error e
                  | .ok instance_names =>
                    .ok (.found username role instance_names)
        | _ => .error .valueError

/-- The scan loop of `get_events` (lines 49-63): walk the records in
order; on the first one whose `eventName` equals `event_type` (Python
`==`, case-sensitive) run `extract_match` and return; if the loop
finishes, return the not-found tuple. -/
def get_events_loop (event_type : String) : List Json → Except PyError GetEventsResult
  | [] => .ok .notFound
  | record :: rest =>
    match record.get "eventName" with
    | .error e => .error e
    | .ok ev =>
      if jsonEqStr ev event_type then extract_match record
      else get_events_loop event_type rest

/-- `get_events(json_data, event_type)` (lines 38-63): iterate over
`json_data['Records']` looking for the first matching record. -/
def get_events (json_data : Json) (event_type : String) : Except PyError GetEventsResult :=
  match json_data.get "Records" with
  | .error e => .error e
  | .ok records =>
    match pyIter records with
    | .error e => .error e
    | .ok recordList => get_events_loop event_type recordList

/-- The outbound Slack message built by `update_slack` (lines 79-89):
top-level `text` plus one attachment with `author_name`, `title`, `text`
(held here as `attachment_text`) and `color`. -/
structure SlackPayload where
  text : String
  author_name : String
  title : String
  attachment_text : String
  color : String
deriving DecidableEq

/-- `update_slack(username, role, instances)` (lines 66-92): joins the
instance names with newlines (a `TypeError` on a non-string, raised
before any POST), builds the fixed-format payload, POSTs it, and returns
the webhook's HTTP status code uninterpreted. The webhook's response code
is supplied as `status_code` by the environment; the payload that would
be POSTed is returned alongside it so callers can record the side
effect. -/
def update_slack (status_code : Nat) (username role : String)
    (instances : List Json) : Except PyError (Nat × SlackPayload) :=
  match pyJoin "\n" instances with
  | .error e => .error e
  | .ok instance_str =>
    .ok (status_code,
      { text := "RunInstances event detected.",
        author_name := "User: " ++ username ++ "\nRole: " ++ role,
        title := "Instance Names",
        attachment_text := instance_str,
        color := "#FF0000" })

/-- The external world of one invocation: `s3get bucket key` stands for
the composite `s3.get_object` + `GzipFile(...).read().decode('utf-8')` +
`json.loads` chain of `format_data` (lines 28-33), whose failures
(missing object, bad gzip framing, bad UTF-8, bad JSON) are raised by
libraries outside this repository; `slackStatus` is the HTTP status code
the Slack webhook answers with. -/
structure Env where
  s3get : Json → Json → Except PyError Json
  slackStatus : Nat

/-- `format_data(data)` (lines 16-35): read bucket name and object key
out of the trigger event (`data['Records'][0]['s3']['bucket']['name']`,
then `data['Records'][0]['s3']['object']['key']`, in that order), then
fetch and decode the object through the environment. The subscript chain
is evaluated before any object-store call is made. -/
def format_data (env : Env) (data : Json) : Except PyError Json :=
  match data.get "Records" with
  | .error e => .error e
  | .ok records =>
    match pyIndex records 0 with
    | .error e => .error e
    | .ok r0 =>
      match r0.get "s3" with
      | .error e => .error e
      | .ok s3rec =>
        match s3rec.get "bucket" with
        | .error e => .error e
        | .ok bucketObj =>
          match bucketObj.get "name" with
          | .error e => .error e
          | .ok bucket =>
            match r0.get "s3" with
            | .error e => .error e
            | .ok s3rec2 =>
              match s3rec2.get "object" with
              | .error e => .error e
              | .ok objectObj =>
                match objectObj.get "key" with
                | .error e => .error e
                | .ok key => env.s3get bucket key

/-- The fetch-decode-extract prefix of the pipeline: `format_data`
followed by `get_events(json_data, 'RunInstances')`, exactly as
`lambda_handler` composes them (lines 102-103). -/
def pipeline_extract (env : Env) (event : Json) : Except PyError GetEventsResult :=
  match format_data env event with
  | .error e => .error e
  | .ok json_data => get_events json_data "RunInstances"

/-- `lambda_handler(event, context)` (lines 95-108), with its side
effects made explicit: the first component is the invocation outcome (an
uncaught exception propagates to the runtime as `.error`), the second the
list of webhook POSTs performed. On a found event the handler calls
`update_slack` and discards its status code; the only fallible step of
`update_slack` (the join) precedes the POST, so a faulting invocation has
an empty POST list. -/
def run_handler (env : Env) (event : Json) : Except PyError Unit × List SlackPayload :=
  match format_data env event with
  | .error e => (.error e, [])
  | .ok json_data =>
    match get_events json_data "RunInstances" with
    | .error e => (.error e, [])
    | .ok .notFound => (.ok (), [])
    | .ok (.found username role instance_names) =>
      match update_slack env.slackStatus username role instance_names with
      | .error e => (.error e, [])
      | .ok (_status, payload) => (.ok (), [payload])

/-! ### Concrete scenario data -/

/-- The audit record of Scenario A of the spec: a `RunInstances` event by
the assumed role `Admin` of user `alice` that launched `i-1` and `i-2`. -/
def scenarioARecord : Json := .obj [
  ("eventName", .str "RunInstances"),
  ("userIdentity", .obj [("arn", .str "arn:aws:sts::123:assumed-role/Admin/alice")]),
  ("responseElements", .obj [("instancesSet", .obj [("items", .arr [
      .obj [("instanceId", .str "i-1")], .obj [("instanceId", .str "i-2")]])])])]

/-- Scenario A audit log: exactly one record. -/
def scenarioALog : Json := .obj [("Records", .arr [scenarioARecord])]

/-- An S3 trigger event carrying one bucket/key record. -/
def scenarioAEvent : Json := .obj [("Records", .arr [.obj [("s3", .obj [
  ("bucket", .obj [("name", .str "logbucket")]),
  ("object", .obj [("key", .str "logs/object.gz")])])]])]

/-- Environment whose object store always serves the Scenario A log and
whose webhook answers with the given status code. -/
def envA (status : Nat) : Env :=
  { s3get := fun _ _ => .ok scenarioALog, slackStatus := status }

/-- The payload `update_slack` builds for Scenario A. -/
def scenarioAPayload : SlackPayload :=
  { text := "RunInstances event detected.",
    author_name := "User: alice\nRole: Admin",
    title := "Instance Names",
    attachment_text := "i-1\ni-2",
    color := "#FF0000" }

/-- A record the scan passes over: it has an `eventName` that is not the
target. Its other fields may be absent or arbitrarily malformed. -/
def nonMatchingRecord : Json := .obj [("eventName", .str "StopInstances")]

/-- A non-matching record with a malformed `userIdentity` (a number, not
an object): the scan must skip it without faulting. -/
def garbageRecord : Json := .obj [
  ("eventName", .str "StopInstances"),
  ("userIdentity", .num 7)]

/-- A matching record whose ARN has only two `/`-separated segments. -/
def badArnRecord : Json := .obj [
  ("eventName", .str "RunInstances"),
  ("userIdentity", .obj [("arn", .str "arn:aws:sts::123:assumed-role/alice")])]

/-- Environment whose object store serves a document with no top-level
`Records` key. -/
def envMissingRecords : Env :=
  { s3get := fun _ _ => .ok (.obj [("NotRecords", .null)]), slackStatus := 200 }

/-- Environment whose object store serves a log whose only record does
not match the target event type. -/
def envMissingMatch : Env :=
  { s3get := fun _ _ => .ok (.obj [("Records", .arr [nonMatchingRecord])]),
    slackStatus := 200 }

/-- Environment whose object store faults on every read: used to show
that an outcome cannot have involved an object-store read. -/
def envBadStore : Env :=
  { s3get := fun _ _ => .error .typeError, slackStatus := 200 }

/-! ### Helper lemmas -/

/-- A record is skipped by the scan exactly when its `eventName` field is
present and is not (Python `==`) the target string. -/
def recordSkipped (t : String) (r : Json) : Bool :=
  match r.get "eventName" with
  | .ok v => !(jsonEqStr v t)
  | .error _ => false

theorem asStrList_map_str (ids : List String) :
    asStrList (ids.map Json.str) = .ok ids := by
  induction ids with
  | nil => rfl
  | cons a l ih => simp [asStrList, ih]

theorem get_events_loop_cons_eventname (t : String) (r : Json) (rest : List Json)
    (v : Json) (hev : r.get "eventName" = .ok v) :
    get_events_loop t (r :: rest)
      = if jsonEqStr v t then extract_match r else get_events_loop t rest := by
  conv_lhs => unfold get_events_loop
  rw [hev]

theorem get_events_loop_cons_skip (t : String) (r : Json) (rest : List Json)
    (h : recordSkipped t r = true) :
    get_events_loop t (r :: rest) = get_events_loop t rest := by
  unfold recordSkipped at h
  cases hev : r.get "eventName" with
  | error e => rw [hev] at h; simp at h
  | ok v =>
    rw [hev] at h
    simp only at h
    rw [get_events_loop_cons_eventname t r rest v hev]
    simp at h
    simp [h]

theorem get_events_loop_cons_match (t : String) (r : Json) (rest : List Json)
    (v : Json) (hev : r.get "eventName" = .ok v) (hmatch : jsonEqStr v t = true) :
    get_events_loop t (r :: rest) = extract_match r := by
  rw [get_events_loop_cons_eventname t r rest v hev]
  simp [hmatch]

theorem get_events_loop_skip (t : String) (pre rest : List Json)
    (h : ∀ r ∈ pre, recordSkipped t r = true) :
    get_events_loop t (pre ++ rest) = get_events_loop t rest := by
  induction pre with
  | nil => rfl
  | cons r pre ih =>
    rw [List.cons_append,
      get_events_loop_cons_skip t r (pre ++ rest) (h r (List.mem_cons_self r pre))]
    exact ih fun x hx => h x (List.mem_cons_of_mem r hx)

/-! ### Claims -/

/-- C1: For an audit log containing exactly one record with eventName
"RunInstances", userIdentity.arn "arn:aws:sts::123:assumed-role/Admin/alice",
and responseElements.instancesSet.items
[instanceId i-1, instanceId i-2], extraction yields username "alice",
role "Admin", instanceIds [i-1, i-2], and the notifier's POST body has
attachment text "i-1\ni-2". -/
theorem scenarioA_extraction_and_payload :
    get_events scenarioALog "RunInstances"
      = .ok (.found "alice" "Admin" [.str "i-1", .str "i-2"]) ∧
    update_slack 200 "alice" "Admin" [.str "i-1", .str "i-2"]
      = .ok (200, scenarioAPayload) ∧
    scenarioAPayload.attachment_text = "i-1\ni-2" :=
  ⟨rfl, rfl, rfl⟩

/-- C2: When the decoded document lacks the top-level `Records` key, the
deserialization into the AuditLog shape (the `json_data['Records']`
access at line 49, the spec's `SchemaError`) faults with a `KeyError`,
the invocation fails, and no partial decode result and no POST is
produced. -/
theorem decode_missing_records_faults (fields : List (String × Json))
    (hmiss : lookupField fields "Records" = none) (t : String)
    (env : Env) (event : Json)
    (hdoc : format_data env event = .ok (.obj fields)) :
    get_events (.obj fields) t = .error (.keyError "Records") ∧
    run_handler env event = (.error (.keyError "Records"), []) := by
  have hget : (Json.obj fields).get "Records" = .error (.keyError "Records") := by
    simp [Json.get, hmiss]
  constructor
  · unfold get_events
    rw [hget]
  · unfold run_handler
    rw [hdoc]
    have hge : get_events (.obj fields) "RunInstances"
        = .error (.keyError "Records") := by
      unfold get_events
      rw [hget]
    simp [hge]

/-- Witness for C2 at a concrete store document lacking `Records`. -/
theorem decode_missing_records_faults_witness :
    get_events (.obj [("NotRecords", .null)]) "RunInstances"
      = .error (.keyError "Records") ∧
    run_handler envMissingRecords scenarioAEvent
      = (.error (.keyError "Records"), []) :=
  decode_missing_records_faults [("NotRecords", .null)] rfl "RunInstances"
    envMissingRecords scenarioAEvent rfl

/-- C3: For every audit log whose Records list is empty, and for every
log in which each record's eventName is present and differs from the
target, the extractor returns the not-found tuple and does not fault:
NotFound is a normal outcome, not an error. -/
theorem extractor_notfound_is_normal (t : String) (records : List Json)
    (h : ∀ r ∈ records, recordSkipped t r = true) :
    get_events (.obj [("Records", .arr records)]) t = .ok .notFound ∧
    get_events (.obj [("Records", .arr [])]) t = .ok .notFound := by
  constructor
  · have h1 : get_events (.obj [("Records", .arr records)]) t
        = get_events_loop t records := rfl
    have h2 : records = records ++ [] := by simp
    rw [h1, h2, get_events_loop_skip t records [] h]
    rfl
  · rfl

/-- Witness for C3: a one-record log with a non-matching eventName. -/
theorem extractor_notfound_is_normal_witness :
    get_events (.obj [("Records", .arr [nonMatchingRecord])]) "RunInstances"
      = .ok .notFound ∧
    get_events (.obj [("Records", .arr [])]) "RunInstances" = .ok .notFound :=
  extractor_notfound_is_normal "RunInstances" [nonMatchingRecord] (by decide)

/-- C10: For every trigger event whose `Records` list is empty, the
invocation faults with an `IndexError` on `data['Records'][0]` inside
`format_data`, before any object-store read, decode, or webhook POST:
the outcome is the same for every environment (so the store is never
consulted) and the POST trace is empty. -/
theorem empty_trigger_records_faults (env : Env) (fields : List (String × Json))
    (h : lookupField fields "Records" = some (.arr [])) :
    format_data env (.obj fields) = .error .indexError ∧
    run_handler env (.obj fields) = (.error .indexError, []) := by
  have h1 : (Json.obj fields).get "Records" = .ok (.arr []) := by
    simp [Json.get, h]
  have h2 : format_data env (.obj fields) = .error .indexError := by
    unfold format_data
    rw [h1]
    rfl
  refine ⟨h2, ?_⟩
  unfold run_handler
  rw [h2]

/-- Witness for C10: an empty trigger over a store that would fault if it
were ever read. -/
theorem empty_trigger_records_faults_witness :
    format_data envBadStore (.obj [("Records", .arr [])]) = .error .indexError ∧
    run_handler envBadStore (.obj [("Records", .arr [])])
      = (.error .indexError, []) :=
  empty_trigger_records_faults envBadStore [("Records", .arr [])] rfl

/-- C4: If the first matching record's `userIdentity.arn`, split on `/`,
does not have exactly three segments, extraction faults with the
`ValueError` of the unpacking `arn, role, username = iam_entity.split('/')`
(the spec's `MalformedIdentityError`); it never silently defaults the
role or username. -/
theorem malformed_arn_faults (t : String) (pre post : List Json)
    (r v u : Json) (s : String)
    (hpre : ∀ x ∈ pre, recordSkipped t x = true)
    (hev : r.get "eventName" = .ok v) (hmatch : jsonEqStr v t = true)
    (hui : r.get "userIdentity" = .ok u)
    (harn : u.get "arn" = .ok (.str s))
    (hlen : (pySplit s '/').length ≠ 3) :
    get_events (.obj [("Records", .arr (pre ++ r :: post))]) t
      = .error .valueError := by
  have h1 : get_events (.obj [("Records", .arr (pre ++ r :: post))]) t
      = get_events_loop t (pre ++ r :: post) := rfl
  rw [h1, get_events_loop_skip t pre (r :: post) hpre,
    get_events_loop_cons_match t r post v hev hmatch]
  unfold extract_match
  simp only [hui, harn, pySplitSlash]
  cases hp : pySplit s '/' with
  | nil => rfl
  | cons a l =>
    cases l with
    | nil => rfl
    | cons b l2 =>
      cases l2 with
      | nil => rfl
      | cons c l3 =>
        cases l3 with
        | nil => rw [hp] at hlen; simp at hlen
        | cons d l4 => rfl

/-- Witness for C4: a matching record whose ARN has two segments. -/
theorem malformed_arn_faults_witness :
    get_events (.obj [("Records", .arr ([] ++ badArnRecord :: []))]) "RunInstances"
      = .error .valueError :=
  malformed_arn_faults "RunInstances" [] [] badArnRecord
    (.str "RunInstances") (.obj [("arn", .str "arn:aws:sts::123:assumed-role/alice")])
    "arn:aws:sts::123:assumed-role/alice"
    (by decide) rfl rfl rfl rfl (by decide)

/-- C5: The extractor scans `log.Records` in order and returns the
extraction of the first record whose eventName equals the target (exact,
case-sensitive Python string equality); the records after the first
match are universally quantified and absent from the result, so every
subsequent matching record is ignored, and a single invocation performs
at most one webhook POST. -/
theorem first_match_wins (t : String) (pre post : List Json) (r v : Json)
    (hpre : ∀ x ∈ pre, recordSkipped t x = true)
    (hev : r.get "eventName" = .ok v) (hmatch : jsonEqStr v t = true) :
    get_events (.obj [("Records", .arr (pre ++ r :: post))]) t
      = extract_match r ∧
    ∀ env event, (run_handler env event).2.length ≤ 1 := by
  constructor
  · have h1 : get_events (.obj [("Records", .arr (pre ++ r :: post))]) t
        = get_events_loop t (pre ++ r :: post) := rfl
    rw [h1, get_events_loop_skip t pre (r :: post) hpre,
      get_events_loop_cons_match t r post v hev hmatch]
  · intro env event
    unfold run_handler
    repeat' split
    all_goals simp

/-- Witness for C5: a log with a non-matching record, then the Scenario A
record, then a second matching record that is ignored. -/
theorem first_match_wins_witness :
    get_events (.obj [("Records",
        .arr ([nonMatchingRecord] ++ scenarioARecord :: [scenarioARecord]))])
      "RunInstances" = extract_match scenarioARecord ∧
    (run_handler (envA 200) scenarioAEvent).2.length ≤ 1 := by
  have h := first_match_wins "RunInstances" [nonMatchingRecord] [scenarioARecord]
    scenarioARecord (.str "RunInstances") (by decide) rfl rfl
  exact ⟨h.1, h.2 (envA 200) scenarioAEvent⟩

/-- C9: For every block of records preceding the first match (and, with
`rest = []`, for every record when no match exists), only the `eventName`
field matters: any log is extracted exactly as the log without those
skipped records, however malformed or absent their `userIdentity`,
`arn`, `responseElements` or `instanceId` fields are, so such records
never cause a fault. -/
theorem skipped_records_read_only_eventname (t : String) (pre rest : List Json)
    (h : ∀ r ∈ pre, recordSkipped t r = true) :
    get_events (.obj [("Records", .arr (pre ++ rest))]) t
      = get_events (.obj [("Records", .arr rest)]) t ∧
    get_events_loop t (pre ++ rest) = get_events_loop t rest := by
  have h2 := get_events_loop_skip t pre rest h
  exact ⟨h2, h2⟩

/-- Witness for C9: a skipped record whose `userIdentity` is a bare
number does not fault the scan. -/
theorem skipped_records_read_only_eventname_witness :
    get_events (.obj [("Records", .arr ([garbageRecord] ++ []))]) "RunInstances"
      = .ok .notFound :=
  (skipped_records_read_only_eventname "RunInstances" [garbageRecord] []
    (by decide)).1.trans rfl

/-- C6: For every extracted result, the notification payload has message
text "RunInstances event detected.", author line "User: username
newline Role: role", title "Instance Names", color "#FF0000", and
attachment text equal to the instance IDs joined by newline; and the
extraction loop returns the `instanceId` values in exactly the order of
`responseElements.instancesSet.items`, neither deduplicated nor
sorted. -/
theorem payload_format_and_order (status : Nat) (username role : String)
    (ids : List String) (vals : List Json) :
    update_slack status username role (ids.map Json.str)
      = .ok (status,
        { text := "RunInstances event detected.",
          author_name := "User: " ++ username ++ "\nRole: " ++ role,
          title := "Instance Names",
          attachment_text := String.intercalate "\n" ids,
          color := "#FF0000" }) ∧
    collectInstanceIds (vals.map fun v => Json.obj [("instanceId", v)])
      = .ok vals := by
  constructor
  · unfold update_slack pyJoin
    rw [asStrList_map_str]
  · induction vals with
    | nil => rfl
    | cons v l ih => simp [collectInstanceIds, Json.get, lookupField, ih]

/-- C7: The notifier returns the raw HTTP status code of the webhook POST
without interpreting it, succeeding for every status value including
non-2xx ones; in particular when the webhook answers 500 the notifier
returns 500 and the invocation still completes successfully, with the
POST performed. -/
theorem notifier_returns_raw_status :
    (∀ (status : Nat) (username role : String) (ids : List String),
      (update_slack status username role (ids.map Json.str)).toOption.map Prod.fst
        = some status) ∧
    (∀ status : Nat,
      run_handler (envA status) scenarioAEvent = (.ok (), [scenarioAPayload])) ∧
    run_handler (envA 500) scenarioAEvent = (.ok (), [scenarioAPayload]) := by
  refine ⟨?_, ?_, rfl⟩
  · intro status username role ids
    unfold update_slack pyJoin
    rw [asStrList_map_str]
    rfl
  · intro status
    rfl

/-- C8: The entry point POSTs to the webhook if and only if the
fetch-decode-extract prefix finds a matching record: a non-empty POST
trace implies a found extraction; a not-found extraction completes the
invocation without error and without a POST; a fault in fetch, decode or
extract fails the invocation with no POST; and a found extraction (with
the string instance IDs the data model guarantees) performs exactly one
POST. -/
theorem post_iff_match (env : Env) (event : Json) :
    ((run_handler env event).2 ≠ [] →
      ∃ u rl ns, pipeline_extract env event = .ok (.found u rl ns)) ∧
    (pipeline_extract env event = .ok .notFound →
      run_handler env event = (.ok (), [])) ∧
    (∀ e, pipeline_extract env event = .error e →
      run_handler env event = (.error e, [])) ∧
    (∀ u rl (ids : List String),
      pipeline_extract env event = .ok (.found u rl (ids.map Json.str)) →
      (run_handler env event).2.length = 1) := by
  rcases hfd : format_data env event with e | doc
  · have hpe : pipeline_extract env event = .error e := by
      simp only [pipeline_extract, hfd]
    have hrh : run_handler env event = (.error e, []) := by
      simp only [run_handler, hfd]
    refine ⟨?_, ?_, ?_, ?_⟩
    · intro hne; rw [hrh] at hne; simp at hne
    · intro hno; rw [hpe] at hno; simp at hno
    · intro e2 he2
      rw [hpe] at he2
      injection he2 with h
      rw [hrh, h]
    · intro u rl ids hfo; rw [hpe] at hfo; simp at hfo
  · have hpe0 : pipeline_extract env event = get_events doc "RunInstances" := by
      simp only [pipeline_extract, hfd]
    rcases hge : get_events doc "RunInstances" with e | res
    · have hpe : pipeline_extract env event = .error e := hpe0.trans hge
      have hrh : run_handler env event = (.error e, []) := by
        simp only [run_handler, hfd, hge]
      refine ⟨?_, ?_, ?_, ?_⟩
      · intro hne; rw [hrh] at hne; simp at hne
      · intro hno; rw [hpe] at hno; simp at hno
      · intro e2 he2
        rw [hpe] at he2
        injection he2 with h
        rw [hrh, h]
      · intro u rl ids hfo; rw [hpe] at hfo; simp at hfo
    · rcases res with ⟨u0, rl0, ns0⟩ | _
      · have hpe : pipeline_extract env event = .ok (.found u0 rl0 ns0) :=
          hpe0.trans hge
        rcases hup : update_slack env.slackStatus u0 rl0 ns0 with e | p
        · have hrh : run_handler env event = (.error e, []) := by
            simp only [run_handler, hfd, hge, hup]
          refine ⟨?_, ?_, ?_, ?_⟩
          · intro hne; rw [hrh] at hne; simp at hne
          · intro hno; rw [hpe] at hno; simp at hno
          · intro e2 he2; rw [hpe] at he2; simp at he2
          · intro u rl ids hfo
            rw [hpe] at hfo
            simp only [Except.ok.injEq, GetEventsResult.found.injEq] at hfo
            obtain ⟨-, -, hns⟩ := hfo
            rw [hns] at hup
            unfold update_slack pyJoin at hup
            rw [asStrList_map_str] at hup
            simp at hup
        · obtain ⟨st, pl⟩ := p
          have hrh : run_handler env event = (.ok (), [pl]) := by
            simp only [run_handler, hfd, hge, hup]
          refine ⟨?_, ?_, ?_, ?_⟩
          · intro _; exact ⟨u0, rl0, ns0, hpe⟩
          · intro hno; rw [hpe] at hno; simp at hno
          · intro e2 he2; rw [hpe] at he2; simp at he2
          · intro u rl ids hfo; rw [hrh]; rfl
      · have hpe : pipeline_extract env event = .ok .notFound := hpe0.trans hge
        have hrh : run_handler env event = (.ok (), []) := by
          simp only [run_handler, hfd, hge]
        refine ⟨?_, ?_, ?_, ?_⟩
        · intro hne; rw [hrh] at hne; simp at hne
        · intro _; exact hrh
        · intro e2 he2; rw [hpe] at he2; simp at he2
        · intro u rl ids hfo; rw [hpe] at hfo; simp at hfo

/-- Witness for C8: a found extraction performs exactly one POST, and a
log with no matching record completes without error and with no POST. -/
theorem post_iff_match_witness :
    (run_handler (envA 200) scenarioAEvent).2.length = 1 ∧
    run_handler envMissingMatch scenarioAEvent = (.ok (), []) :=
  ⟨(post_iff_match (envA 200) scenarioAEvent).2.2.2 "alice" "Admin"
      ["i-1", "i-2"] rfl,
    (post_iff_match envMissingMatch scenarioAEvent).2.1 rfl⟩

end LambdaFn
